import Mathlib

/-!
Shallow embedding of the Element-Plus → PrimeVue compatibility shim
(`src/frontend-primevue/src/plugins/primevue-compat.ts` and
`src/frontend-primevue/src/compat/element-plus.ts`), together with proofs
of the behavioural properties of the menu navigation state, the
message/confirmation/prompt adapters and the pagination adapter.

Conventions of the embedding:
- the JS `Set<string>` `openedKeys` is a duplicate-free `List String`
  (insertion appends, deletion filters);
- the JS `Map<string, string | null>` `parentMap` is an association list
  `List (String × Option String)`; a lookup collapses a missing entry and a
  stored `null` to `none`, matching the code's `parentMap.get(key) ?? null`;
- the optional global service handles are modelled by the data that decides
  their observable behaviour (`Option Bool` for a confirmation service that
  will accept or reject, `Bool` for toast-registration);
- effects (toast added vs. console fallback, promise resolution vs.
  rejection) are reified as inductive values / `Except`.
-/

namespace PrimeVueCompat

/-! ### Menu navigation state (`ElMenu` in primevue-compat.ts) -/

/-- Association-list model of `parentMap : Map<string, string | null>`. -/
abbrev ParentMap := List (String × Option String)

/-- Model of `parentMap.value.get(key) ?? null`: a missing entry and a stored
`null` both read back as `none`. -/
def lookupParent (pm : ParentMap) (key : String) : Option String :=
  match pm.lookup key with
  | some p => p
  | none => none

/-- Embedding of `registerSubMenu` (primevue-compat.ts lines 581-584):
`if (!key) return; parentMap.value.set(key, parentKey)`. -/
def registerSubMenu (pm : ParentMap) (key : String) (parentKey : Option String) :
    ParentMap :=
  if key = "" then pm
  else (key, parentKey) :: pm.filter (fun e => !decide (e.1 = key))

/-- Embedding of `toggleOpen` (primevue-compat.ts lines 585-603). An empty key
returns immediately; an open key is removed; otherwise, under `uniqueOpened`,
every open key whose parent (via `lookupParent`) equals the toggled key's
parent is removed first, and then the key is appended. -/
def toggleOpen (uniqueOpened : Bool) (pm : ParentMap) (openedKeys : List String)
    (key : String) : List String :=
  if key = "" then openedKeys
  else
    let parentKey := lookupParent pm key
    if key ∈ openedKeys then
      openedKeys.filter (fun k => !decide (k = key))
    else
      let base :=
        if uniqueOpened then
          openedKeys.filter (fun k => !decide (lookupParent pm k = parentKey))
        else openedKeys
      base ++ [key]

/-- Embedding of `ElMenu.isOpened` (primevue-compat.ts line 604):
`openedKeys.value.has(key)`. -/
def menuIsOpened (openedKeys : List String) (key : String) : Bool :=
  decide (key ∈ openedKeys)

/-- The parent map produced by registering a small static menu: submenus `p`
and `q` are top-level, `a` and `b` are siblings under `p`, `c` is under `q`.
Used for the concrete scenarios of the claims. -/
def pmSiblings : ParentMap :=
  [("p", (none : Option String)), ("q", none),
   ("a", some "p"), ("b", some "p"), ("c", some "q")].foldl
    (fun pm e => registerSubMenu pm e.1 e.2) []

/-- The spec's invariant for `uniqueOpened` menus: at most one key per parent
group is open, where the group of a key is its `lookupParent` image. -/
def atMostOnePerGroup (pm : ParentMap) (s : List String) : Prop :=
  ∀ a ∈ s, ∀ b ∈ s, lookupParent pm a = lookupParent pm b → a = b

/-- Run a sequence of `toggleOpen` calls (left to right) from a start state. -/
def runToggles (uniqueOpened : Bool) (pm : ParentMap) (start : List String)
    (keys : List String) : List String :=
  keys.foldl (toggleOpen uniqueOpened pm) start

/-! ### Submenu slot tree (`ElSubMenu` / `findActiveIndex` in primevue-compat.ts) -/

/-- A rendered menu vnode: its `index` prop (`""` when absent, the prop's
default) and its child vnodes. -/
inductive MenuNode where
  | mk (index : String) (children : List MenuNode)

/-- Embedding of `findActiveIndex` (primevue-compat.ts lines 667-679): true iff
some node in the forest has a truthy (non-empty) `index` equal to
`activePath`, searching children recursively. -/
def findActiveIndex : List MenuNode → String → Bool
  | [], _ => false
  | MenuNode.mk idx cs :: rest, ap =>
    (!decide (idx = "") && decide (idx = ap)) || findActiveIndex cs ap
      || findActiveIndex rest ap

/-- Model of JS `s.startsWith(pre)`: `pre` is a character-sequence prefix of
`s`. -/
def jsStartsWith (s pre : String) : Bool :=
  pre.data.isPrefixOf s.data

/-- Embedding of the `ElSubMenu` computed `isOpened` (primevue-compat.ts lines
694-702) in the menu-present case: `menu.isOpened(index)`, or
`hasActiveChild` (`!!activePath && findActiveIndex(slots, activePath)`), or
`props.index && activePath.startsWith(props.index)`. -/
def subIsOpened (openedKeys : List String) (children : List MenuNode)
    (activePath : String) (key : String) : Bool :=
  menuIsOpened openedKeys key
    || (!decide (activePath = "") && findActiveIndex children activePath)
    || (!decide (key = "") && jsStartsWith activePath key)

/-- Written from the spec's words for `isOpened(key)` (§4.5): `key ∈
openedKeys`, OR some descendant has an index equal to `activePath`, OR
`activePath` has `key` as a string prefix — with no emptiness guards. -/
def specDescendantMatch : List MenuNode → String → Bool
  | [], _ => false
  | MenuNode.mk idx cs :: rest, ap =>
    decide (idx = ap) || specDescendantMatch cs ap || specDescendantMatch rest ap

/-- The spec's `isOpened(key)` disjunction, exactly as the claim states it. -/
def specIsOpenedClaim (openedKeys : List String) (children : List MenuNode)
    (activePath : String) (key : String) : Bool :=
  decide (key ∈ openedKeys) || specDescendantMatch children activePath
    || jsStartsWith activePath key

/-! ### Message adapter (`ElMessage` in element-plus.ts) -/

/-- The `type` field of `MessageOptions`:
`'success' | 'info' | 'warning' | 'error'`. -/
inductive MsgKind where
  | success
  | info
  | warning
  | error
deriving DecidableEq, Repr

/-- Embedding of the `MessageOptions` record; absent optional fields are
`none`. The JS `duration` is a millisecond count, modelled as `Nat`. -/
structure MessageOptions where
  message : String
  type : Option MsgKind
  duration : Option Nat
deriving DecidableEq, Repr

/-- Embedding of `resolveSeverity` (element-plus.ts lines 16-27): a `switch`
with a `default` branch covering `info` and `undefined`. -/
def resolveSeverity : Option MsgKind → String
  | some MsgKind.success => "success"
  | some MsgKind.warning => "warn"
  | some MsgKind.error => "error"
  | _ => "info"

/-- The record passed to `toast.add` (element-plus.ts lines 36-40). -/
structure ToastRecord where
  severity : String
  detail : String
  life : Nat
deriving DecidableEq, Repr

/-- Observable effect of `showToast`: either a record forwarded to the
registered toast service, or the `console.log` fallback. -/
inductive ToastEffect where
  | added (record : ToastRecord)
  | logged (message : String)
deriving DecidableEq, Repr

/-- Embedding of `showToast` (element-plus.ts lines 29-41); `registered` says
whether `getPrimeToastService()` returns a handle. -/
def showToast (registered : Bool) (options : MessageOptions) : ToastEffect :=
  if registered then
    ToastEffect.added
      { severity := resolveSeverity options.type
        detail := options.message
        life := options.duration.getD 3000 }
  else
    ToastEffect.logged options.message

/-- Written from the spec's words (§4.2): the fixed severity table
`success→success, warning→warn, error→error, info/undefined→info`. -/
def specSeverityTable : Option MsgKind → String
  | some MsgKind.success => "success"
  | some MsgKind.warning => "warn"
  | some MsgKind.error => "error"
  | some MsgKind.info => "info"
  | none => "info"

/-- Embedding of the callable `ElMessage` (element-plus.ts lines 43-50): a bare
string is wrapped as `{ message }` with no type and no duration. -/
def elMessage (registered : Bool) (arg : Sum String MessageOptions) :
    ToastEffect :=
  match arg with
  | Sum.inl s => showToast registered ⟨s, none, none⟩
  | Sum.inr o => showToast registered o

/-! ### Confirmation and prompt adapters (`ElMessageBox` in element-plus.ts) -/

/-- Embedding of `ConfirmOptions` (element-plus.ts lines 59-63). -/
structure ConfirmOptions where
  type : Option MsgKind
  confirmButtonText : Option String
  cancelButtonText : Option String
deriving DecidableEq, Repr

/-- The record passed to `confirm.require` (element-plus.ts lines 86-93),
minus the two callbacks, which are modelled by `showConfirmResult`. -/
structure ConfirmRequest where
  header : String
  message : String
  rejectLabel : String
  acceptLabel : String
deriving DecidableEq, Repr

/-- Model of the JS `x || fallback` idiom on an optional string: an absent or
empty string falls back. -/
def jsOrDefault (value : Option String) (fallback : String) : String :=
  match value with
  | some s => if s = "" then fallback else s
  | none => fallback

/-- The `confirm.require` argument built by `showConfirm` (element-plus.ts
lines 85-94) when a confirmation service is registered. -/
def confirmRequestOf (message : String) (title : Option String)
    (options : Option ConfirmOptions) : ConfirmRequest :=
  { header := jsOrDefault title "确认"
    message := message
    rejectLabel := jsOrDefault (options.bind ConfirmOptions.cancelButtonText) "取消"
    acceptLabel := jsOrDefault (options.bind ConfirmOptions.confirmButtonText) "确定" }

/-- The request `showConfirm` issues to the confirmation service: `none` when
no service is registered (the native-`window.confirm` fallback runs instead).
The registered service is modelled by the decision it will take (`true` =
accept). -/
def showConfirmRequest (service : Option Bool) (message : String)
    (title : Option String) (options : Option ConfirmOptions) :
    Option ConfirmRequest :=
  service.map fun _ => confirmRequestOf message title options

/-- Settlement of the promise returned by `showConfirm` (element-plus.ts lines
78-95): with a registered service, `accept` resolves `"confirm"` and `reject`
rejects `"cancel"`; without one, the boolean answer of `window.confirm` is
translated to the same contract. -/
def showConfirmResult (service : Option Bool) (nativeAnswer : Bool) :
    Except String String :=
  match service with
  | none => if nativeAnswer then Except.ok "confirm" else Except.error "cancel"
  | some accepted =>
    if accepted then Except.ok "confirm" else Except.error "cancel"

/-- The `{ value }` record with which `ElMessageBox.prompt` resolves. -/
structure PromptResultValue where
  value : String
deriving DecidableEq, Repr

/-- Embedding of `ElMessageBox.prompt` (element-plus.ts lines 112-118):
`window.prompt` returning `null` (modelled `none`) rejects `"cancel"`, any
entered text `t` (including `""`) resolves `{ value := t }`. -/
def promptBox (nativeInput : Option String) : Except String PromptResultValue :=
  match nativeInput with
  | none => Except.error "cancel"
  | some v => Except.ok ⟨v⟩

/-! ### Pagination adapter (`ElPagination` in primevue-compat.ts) -/

/-- The `first` prop passed to `Paginator` (primevue-compat.ts line 411):
`(currentPage - 1) * pageSize`. -/
def paginatorFirst (currentPage pageSize : Int) : Int :=
  (currentPage - 1) * pageSize

/-- The page recomputed in `onUpdate:first` (primevue-compat.ts line 415):
`Math.floor(value / pageSize) + 1`, i.e. floor division. -/
def paginatorPageOfFirst (value pageSize : Int) : Int :=
  Int.fdiv value pageSize + 1

/-- The two events emitted by the `onUpdate:first` handler (primevue-compat.ts
lines 416-417), in emission order. -/
def paginatorFirstEmits (value pageSize : Int) : List (String × Int) :=
  [("update:currentPage", paginatorPageOfFirst value pageSize),
   ("current-change", paginatorPageOfFirst value pageSize)]

end PrimeVueCompat

namespace PrimeVueCompat

theorem mem_toggleOpen_iff (u : Bool) (pm : ParentMap) (s : List String)
    (key : String) (hk : key ≠ "") (k : String) :
    k ∈ toggleOpen u pm s key ↔
      (if key ∈ s then k ∈ s ∧ k ≠ key
       else if u then (k ∈ s ∧ lookupParent pm k ≠ lookupParent pm key) ∨ k = key
       else k ∈ s ∨ k = key) := by
  unfold toggleOpen
  simp only [if_neg hk]
  by_cases hmem : key ∈ s
  · simp [hmem, List.mem_filter]
  · cases u <;> simp [hmem, List.mem_filter, or_comm]

theorem toggle_preserves_atMostOne (pm : ParentMap) (s : List String)
    (key : String) (h : atMostOnePerGroup pm s) :
    atMostOnePerGroup pm (toggleOpen true pm s key) := by
  by_cases hk : key = ""
  · simpa [toggleOpen, hk] using h
  · intro a ha b hb hab
    rw [mem_toggleOpen_iff true pm s key hk] at ha hb
    by_cases hmem : key ∈ s
    · rw [if_pos hmem] at ha hb
      exact h a ha.1 b hb.1 hab
    · rw [if_neg hmem, if_pos rfl] at ha hb
      rcases ha with ⟨ha₁, ha₂⟩ | ha <;> rcases hb with ⟨hb₁, hb₂⟩ | hb
      · exact h a ha₁ b hb₁ hab
      · exact absurd (hab.trans (by rw [hb])) ha₂
      · exact absurd ((hab.symm).trans (by rw [ha])) hb₂
      · rw [ha, hb]

/-- C1: `toggleOpen(key)` with a non-empty key removes an already-open key;
otherwise, under `uniqueOpened`, it first removes every open key whose
immediate parent equals `key`'s immediate parent and then adds `key`; without
`uniqueOpened` it only adds `key`. In particular, with `uniqueOpened = true`
and siblings `a`, `b` under parent `p` and `c` under parent `q`, opening `b`
while `a` is open yields `{"b"}`, and then opening `c` yields `{"b","c"}`. -/
theorem toggleOpen_behavior (u : Bool) (pm : ParentMap) (s : List String)
    (key : String) (hk : key ≠ "") :
    (∀ k, k ∈ toggleOpen u pm s key ↔
      (if key ∈ s then k ∈ s ∧ k ≠ key
       else if u then (k ∈ s ∧ lookupParent pm k ≠ lookupParent pm key) ∨ k = key
       else k ∈ s ∨ k = key)) ∧
    toggleOpen true pmSiblings [] "a" = ["a"] ∧
    toggleOpen true pmSiblings ["a"] "b" = ["b"] ∧
    toggleOpen true pmSiblings ["b"] "c" = ["b", "c"] :=
  ⟨fun k => mem_toggleOpen_iff u pm s key hk k, by decide, by decide, by decide⟩

/-- Witness for C1 at the concrete sibling scenario. -/
theorem toggleOpen_behavior_witness :
    ("b" : String) ≠ "" ∧ toggleOpen true pmSiblings ["a"] "b" = ["b"] :=
  ⟨by decide, (toggleOpen_behavior true pmSiblings ["a"] "b" (by decide)).2.2.1⟩

/-- C2: with `uniqueOpened = true` and a fixed parent map, every sequence of
`toggleOpen` calls starting from the empty `openedKeys` preserves the
invariant that at most one key per parent group is open. -/
theorem uniqueOpened_invariant (pm : ParentMap) (keys : List String) :
    atMostOnePerGroup pm (runToggles true pm [] keys) := by
  have main : ∀ (ks : List String) (s : List String), atMostOnePerGroup pm s →
      atMostOnePerGroup pm (runToggles true pm s ks) := by
    intro ks
    induction ks with
    | nil => intro s hs; exact hs
    | cons k ks ih =>
      intro s hs
      exact ih (toggleOpen true pm s k) (toggle_preserves_atMostOne pm s k hs)
  exact main keys [] (by intro a ha; exact absurd ha (List.not_mem_nil a))

/-- C10: an empty-string key makes both `toggleOpen` and `registerSubMenu`
complete no-ops on the menu state. -/
theorem emptyKey_noop (u : Bool) (pm : ParentMap) (s : List String)
    (p : Option String) :
    toggleOpen u pm s "" = s ∧ registerSubMenu pm "" p = pm := by
  constructor <;> simp [toggleOpen, registerSubMenu]

theorem findActiveIndex_eq_spec (ap : String) (h : ap ≠ "") :
    ∀ cs : List MenuNode, findActiveIndex cs ap = specDescendantMatch cs ap := by
  intro cs
  induction cs, ap using findActiveIndex.induct with
  | case1 ap => simp [findActiveIndex, specDescendantMatch]
  | case2 idx cs rest ap ih1 ih2 =>
    simp only [findActiveIndex, specDescendantMatch, ih1 h, ih2 h]
    by_cases hi : idx = ap
    · subst hi; simp [h]
    · simp [hi]

/-- C3 counterexample: with `key = ""`, empty `openedKeys`, no children and
`activePath = "y"`, the claimed disjunction is true (every string has `""` as
a prefix) but `isOpened` returns false (the code guards the prefix heuristic
behind a truthy `props.index`). -/
theorem subIsOpened_claim_counterexample :
    subIsOpened [] [] "y" "" = false ∧ specIsOpenedClaim [] [] "y" "" = true := by
  constructor <;>
    simp [subIsOpened, specIsOpenedClaim, menuIsOpened, jsStartsWith,
      findActiveIndex, specDescendantMatch, List.isPrefixOf]

/-- C3 amended: `isOpened(key)` is true iff `key ∈ openedKeys`, OR
`activePath` is non-empty and some descendant's index equals `activePath`, OR
`key` is non-empty and `activePath` has `key` as a string prefix. -/
theorem subIsOpened_characterization (s : List String) (cs : List MenuNode)
    (ap k : String) :
    subIsOpened s cs ap k =
      (decide (k ∈ s) || (!decide (ap = "") && specDescendantMatch cs ap)
        || (!decide (k = "") && jsStartsWith ap k)) := by
  unfold subIsOpened menuIsOpened
  by_cases hap : ap = ""
  · simp [hap]
  · rw [findActiveIndex_eq_spec ap hap cs]

/-- C4: with a registered toast service, `notify` forwards exactly
`{severity := table kind, detail := message, life := duration ?? 3000}` where
the table is `success→success, warning→warn, error→error, info/undefined→info`;
without one it only logs the message — in both cases it is a total function
(never throws). -/
theorem notify_contract (message : String) (kind : Option MsgKind)
    (duration : Option Nat) :
    showToast true ⟨message, kind, duration⟩ =
      ToastEffect.added ⟨specSeverityTable kind, message, duration.getD 3000⟩ ∧
    showToast false ⟨message, kind, duration⟩ = ToastEffect.logged message := by
  constructor
  · rcases kind with _ | k
    · rfl
    · cases k <;> rfl
  · rfl

/-- C5 counterexample: the claim says the given options override the default
labels, but an explicitly given empty-string `cancelButtonText` is not taken:
the code's `||` falls back to `"取消"`. -/
theorem confirm_labels_counterexample :
    (confirmRequestOf "m" none (some ⟨none, none, some ""⟩)).rejectLabel = "取消" ∧
    ¬ (confirmRequestOf "m" none (some ⟨none, none, some ""⟩)).rejectLabel = "" := by
  constructor <;> simp [confirmRequestOf, jsOrDefault]

/-- C5 amended: with a registered confirmation service, `confirm` issues a
request whose accept/reject labels are the given option texts when those are
non-empty and `"确定"`/`"取消"` otherwise, and the returned promise resolves
`"confirm"` when the service accepts and rejects `"cancel"` when it rejects
(dismissal being surfaced as a rejection by the service). -/
theorem confirm_service_contract (message : String) (title : Option String)
    (options : Option ConfirmOptions) (na : Bool) :
    showConfirmRequest (some true) message title options =
      some (confirmRequestOf message title options) ∧
    (∀ s, options.bind ConfirmOptions.confirmButtonText = some s → s ≠ "" →
      (confirmRequestOf message title options).acceptLabel = s) ∧
    ((options.bind ConfirmOptions.confirmButtonText).getD "" = "" →
      (confirmRequestOf message title options).acceptLabel = "确定") ∧
    (∀ s, options.bind ConfirmOptions.cancelButtonText = some s → s ≠ "" →
      (confirmRequestOf message title options).rejectLabel = s) ∧
    ((options.bind ConfirmOptions.cancelButtonText).getD "" = "" →
      (confirmRequestOf message title options).rejectLabel = "取消") ∧
    showConfirmResult (some true) na = Except.ok "confirm" ∧
    showConfirmResult (some false) na = Except.error "cancel" := by
  refine ⟨rfl, ?_, ?_, ?_, ?_, rfl, rfl⟩ <;>
    simp only [confirmRequestOf, jsOrDefault]
  · intro s hs hne
    rw [hs]
    simp [hne]
  · rcases h : options.bind ConfirmOptions.confirmButtonText with _ | s
    · simp
    · simp only [Option.getD_some]
      intro hs
      simp [hs]
  · intro s hs hne
    rw [hs]
    simp [hne]
  · rcases h : options.bind ConfirmOptions.cancelButtonText with _ | s
    · simp
    · simp only [Option.getD_some]
      intro hs
      simp [hs]

/-- Witness for C5 at a concrete overriding option and a concrete accepting
service. -/
theorem confirm_service_contract_witness :
    ((some ⟨none, some "OK", none⟩ : Option ConfirmOptions).bind
        ConfirmOptions.confirmButtonText = some "OK") ∧
    ("OK" : String) ≠ "" ∧
    (confirmRequestOf "m" none (some ⟨none, some "OK", none⟩)).acceptLabel = "OK" :=
  ⟨rfl, by decide,
    (confirm_service_contract "m" none (some ⟨none, some "OK", none⟩) true).2.1
      "OK" rfl (by decide)⟩

/-- C6: with no registered confirmation service, no request is issued and the
native `window.confirm` boolean answer is translated to the same contract:
`true` resolves `"confirm"`, `false` rejects `"cancel"`. -/
theorem confirm_fallback_contract (message : String) (title : Option String)
    (options : Option ConfirmOptions) :
    showConfirmRequest none message title options = none ∧
    (∀ answer : Bool, showConfirmResult none answer =
      if answer then Except.ok "confirm" else Except.error "cancel") ∧
    showConfirmResult none true = Except.ok "confirm" ∧
    showConfirmResult none false = Except.error "cancel" :=
  ⟨rfl, fun _ => rfl, rfl, rfl⟩

/-- C7: `prompt` resolves `{value := t}` exactly for an entered text `t`
(including `t = ""`) and rejects `"cancel"` exactly for a dismissed (`null`)
native prompt. -/
theorem prompt_contract :
    (∀ t : String, promptBox (some t) = Except.ok ⟨t⟩) ∧
    (∀ input : Option String,
      (promptBox input = Except.error "cancel" ↔ input = none)) ∧
    promptBox (some "") = Except.ok ⟨""⟩ ∧
    promptBox (some "Ada") = Except.ok ⟨"Ada"⟩ ∧
    promptBox none = Except.error "cancel" := by
  refine ⟨fun t => rfl, ?_, rfl, rfl, rfl⟩
  intro input
  rcases input with _ | t <;> simp [promptBox]

/-- C8: for `currentPage ≥ 1` and `pageSize ≥ 1` the adapter passes down
`first = (currentPage - 1) * pageSize`; for a received offset it computes the
unique page with `(page - 1) * pageSize ≤ offset < page * pageSize` (i.e.
`floor(offset / pageSize) + 1`) and emits both `update:currentPage` and
`current-change` with that page; concretely `currentPage=3, pageSize=20` gives
`40` and `offset=60, pageSize=20` gives page `4`. -/
theorem pagination_adapter (currentPage pageSize offset : Int)
    (hp : 1 ≤ currentPage) (hs : 1 ≤ pageSize) (ho : 0 ≤ offset) :
    paginatorFirst currentPage pageSize = (currentPage - 1) * pageSize ∧
    (paginatorPageOfFirst offset pageSize - 1) * pageSize ≤ offset ∧
    offset < paginatorPageOfFirst offset pageSize * pageSize ∧
    paginatorFirstEmits offset pageSize =
      [("update:currentPage", paginatorPageOfFirst offset pageSize),
       ("current-change", paginatorPageOfFirst offset pageSize)] ∧
    paginatorFirst 3 20 = 40 ∧
    paginatorPageOfFirst 60 20 = 4 := by
  have hpos : 0 < pageSize := by omega
  have hfd : Int.fdiv offset pageSize = offset / pageSize :=
    Int.fdiv_eq_ediv offset (by omega)
  have hdm : pageSize * (offset / pageSize) + offset % pageSize = offset :=
    Int.ediv_add_emod offset pageSize
  have hm0 : 0 ≤ offset % pageSize := Int.emod_nonneg offset (by omega)
  have hm1 : offset % pageSize < pageSize := Int.emod_lt_of_pos offset hpos
  refine ⟨rfl, ?_, ?_, rfl, by decide, by decide⟩
  · simp only [paginatorPageOfFirst, hfd, add_sub_cancel_right]
    nlinarith [hdm, hm0]
  · simp only [paginatorPageOfFirst, hfd]
    nlinarith [hdm, hm1]

/-- Witness for C8 at `currentPage=3, pageSize=20, offset=60`. -/
theorem pagination_adapter_witness :
    (1 : Int) ≤ 3 ∧ (1 : Int) ≤ 20 ∧ (0 : Int) ≤ 60 ∧
    paginatorFirst 3 20 = 40 ∧ paginatorPageOfFirst 60 20 = 4 :=
  ⟨by decide, by decide, by decide,
    (pagination_adapter 3 20 60 (by decide) (by decide) (by decide)).2.2.2.2.1,
    (pagination_adapter 3 20 60 (by decide) (by decide) (by decide)).2.2.2.2.2⟩

/-- C9: calling `ElMessage` with a bare string `s` is the same as calling it
with `{message := s}` and no type/duration: severity `"info"`, life `3000`
when a toast service is registered, the log fallback otherwise. -/
theorem elMessage_string_default (registered : Bool) (s : String) :
    elMessage registered (Sum.inl s) =
      elMessage registered (Sum.inr ⟨s, none, none⟩) ∧
    elMessage true (Sum.inl s) = ToastEffect.added ⟨"info", s, 3000⟩ ∧
    elMessage false (Sum.inl s) = ToastEffect.logged s :=
  ⟨rfl, rfl, rfl⟩

end PrimeVueCompat
